import Mathlib

/-!
Verification of the risk-estimation core of the kafun-condition-navi app.

The source is TypeScript operating on JS numbers; the embedding uses exact
rationals (ℚ).  JS `Math.round` rounds half-integers toward positive
infinity, modelled by `jsRound`.  `Number(x.toFixed(1))` is modelled by
`roundTo1` (half toward positive infinity at one decimal; the values the
code feeds it are never exact halves, so the tie direction is irrelevant).
A calendar `Date` is modelled by its 1-based month, the only component the
scoring functions read (`date.getMonth() + 1`).
-/

namespace KafunNavi

/-- Embeds `clamp(value, min, max) = Math.min(max, Math.max(min, value))`. -/
def clamp (value lo hi : ℚ) : ℚ :=
  min hi (max lo value)

/-- JS `Math.round`: nearest integer, halves toward positive infinity. -/
def jsRound (q : ℚ) : ℤ :=
  ⌊q + 1 / 2⌋

/-- `Number(x.toFixed(1))`: round to one decimal place. -/
def roundTo1 (q : ℚ) : ℚ :=
  (jsRound (q * 10) : ℚ) / 10

/-- The four risk categories, in increasing order of severity: the source
strings are 低い (low), やや高い (slightlyHigh), 高い (high),
非常に高い (veryHigh). -/
inductive RiskLevel where
  | low
  | slightlyHigh
  | high
  | veryHigh
deriving DecidableEq, Repr

/-- Embeds `riskLevel(score)`: fixed thresholds 75 / 55 / 35, each boundary
belonging to the higher category. -/
def riskLevel (score : ℚ) : RiskLevel :=
  if 75 ≤ score then .veryHigh
  else if 55 ≤ score then .high
  else if 35 ≤ score then .slightlyHigh
  else .low

/-- Embeds `riskAdvice(level)`: one fixed advisory string per level. -/
def riskAdvice (level : RiskLevel) : String :=
  if level = .veryHigh then
    "外出は短時間にし、マスク・メガネ・上着の花粉対策を徹底してください。"
  else if level = .high then
    "長時間の外出後は衣類をはらい、洗顔・うがいを早めに行いましょう。"
  else if level = .slightlyHigh then
    "油断せず、窓開け時間を短くして室内の花粉侵入を抑えると安心です。"
  else
    "比較的穏やかですが、症状が出やすい方は予防薬を継続してください。"

/-- Embeds the `WeatherSnapshot` record (all JS-number fields). -/
structure WeatherSnapshot where
  temperature : ℚ
  humidity : ℚ
  wind : ℚ
  precipitation : ℚ
  pm10 : ℚ
  pm25 : ℚ
deriving DecidableEq, Repr

/-- Embeds the `RiskResult` record. -/
structure RiskResult where
  score : ℤ
  level : RiskLevel
  advice : String
deriving DecidableEq, Repr

/-- Embeds `seasonalBase(month)`. -/
def seasonalBase (month : ℕ) : ℚ :=
  if 2 ≤ month ∧ month ≤ 4 then 48
  else if month = 5 then 36
  else if 6 ≤ month ∧ month ≤ 9 then 16
  else 10

/-- The running total of `estimateRisk` just before the final
`clamp(score, 0, 100)` and `Math.round`: seasonal base, the five clamped
weather/particulate contributions, then the rain and humidity penalties. -/
def estimateRiskTotal (month : ℕ) (input : WeatherSnapshot) : ℚ :=
  let s0 := seasonalBase month
  let s1 := s0 + clamp ((input.temperature - 12) * (18 / 10)) (-6) 22
  let s2 := s1 + clamp ((input.wind - 2) * (29 / 10)) 0 20
  let s3 := s2 + clamp ((48 - input.humidity) * (6 / 10)) 0 15
  let s4 := s3 + clamp ((input.pm25 - 15) * (4 / 10)) 0 9
  let s5 := s4 + clamp ((input.pm10 - 30) * (25 / 100)) 0 8
  let s6 := if 0 < input.precipitation then s5 - 16 else s5
  if 70 ≤ input.humidity then s6 - 6 else s6

/-- Embeds `estimateRisk(input)`; the `date` argument is represented by its
1-based month `date.getMonth() + 1`. -/
def estimateRisk (month : ℕ) (input : WeatherSnapshot) : RiskResult :=
  let normalized := jsRound (clamp (estimateRiskTotal month input) 0 100)
  let level := riskLevel (normalized : ℚ)
  { score := normalized, level := level, advice := riskAdvice level }

/-- Embeds `monthDistance(a, b) = Math.min(|a - b|, 12 - |a - b|)`. -/
def monthDistance (a b : ℕ) : ℤ :=
  let d : ℤ := |(a : ℤ) - (b : ℤ)|
  min d (12 - d)

/-- Embeds `seasonalFactor(currentMonth, seasonMonths)`. -/
def seasonalFactor (currentMonth : ℕ) (seasonMonths : List ℕ) : ℚ :=
  if currentMonth ∈ seasonMonths then 1
  else if seasonMonths.any (fun m => monthDistance m currentMonth == 1) then (44 / 100)
  else if seasonMonths.any (fun m => monthDistance m currentMonth == 2) then (2 / 10)
  else 0

/-- Embeds the static `PollenType` catalog entry. -/
structure PollenType where
  id : String
  name : String
  seasonMonths : List ℕ
  peakMonths : List ℕ
  description : String
  care : String
deriving DecidableEq, Repr

/-- Embeds `PollenTypeStatus`: a `PollenType` together with its computed
score and level. -/
structure PollenTypeStatus extends PollenType where
  score : ℤ
  level : RiskLevel
deriving DecidableEq, Repr

/-- The five catalog taxa, in declaration order (descriptive strings kept
from the source). -/
def pollenCatalog : List PollenType :=
  [ { id := "cedar", name := "スギ", seasonMonths := [2, 3, 4], peakMonths := [2, 3],
      description := "日本で最も患者数が多い代表的な花粉。早春から急増します。",
      care := "朝の飛散ピーク前に洗濯・換気を済ませると悪化を防ぎやすいです。" },
    { id := "cypress", name := "ヒノキ", seasonMonths := [3, 4, 5], peakMonths := [4],
      description := "スギの後に飛散が強まり、症状が長引く要因になりやすい花粉です。",
      care := "4月以降も自己判断で薬をやめず、就寝前の鼻洗浄を継続しましょう。" },
    { id := "grass", name := "イネ科", seasonMonths := [4, 5, 6, 7, 8], peakMonths := [5, 6],
      description := "河川敷や草地の近くで反応しやすく、初夏まで長く続きます。",
      care := "草地に近いルートを避け、帰宅時に靴と裾の花粉を落としてください。" },
    { id := "ragweed", name := "ブタクサ", seasonMonths := [8, 9, 10], peakMonths := [9],
      description := "秋に増える代表花粉で、朝夕の散歩で症状が出る方が多いです。",
      care := "秋は窓開け換気の時間帯を昼に寄せると吸入量を減らしやすいです。" },
    { id := "birch", name := "シラカンバ", seasonMonths := [4, 5, 6], peakMonths := [5],
      description := "北海道・東北で注意される花粉。地域により体感差が大きいです。",
      care := "目のかゆみが強い日は防風メガネと人工涙液を併用してください。" } ]

/-- Embeds `estimatePollenTypeScore(type, currentMonth, weather, overallRiskScore)`;
`weather` is `null`-able, hence `Option`. -/
def estimatePollenTypeScore (type : PollenType) (currentMonth : ℕ)
    (weather : Option WeatherSnapshot) (overallRiskScore : ℚ) : ℤ :=
  let season := seasonalFactor currentMonth type.seasonMonths
  let windBoost : ℚ :=
    match weather with
    | some w => clamp ((w.wind - 2) * 6) 0 18
    | none => 6
  let dryBoost : ℚ :=
    match weather with
    | some w => clamp ((50 - w.humidity) * (35 / 100)) 0 12
    | none => 4
  let rainPenalty : ℚ :=
    match weather with
    | some w => if 0 < w.precipitation then 12 else 0
    | none => 0
  jsRound (clamp (season * 72 + overallRiskScore * (22 / 100) + windBoost + dryBoost - rainPenalty) 0 100)

/-- The mapped-but-unsorted body of the `pollenTypeStatus` memo: each catalog
taxon paired with its computed score and level; `todayRiskScore` is
`todayRisk?.score ?? 40`. -/
def pollenTypeStatusUnsorted (currentMonth : ℕ) (weather : Option WeatherSnapshot)
    (todayRiskScore : Option ℤ) : List PollenTypeStatus :=
  let overall : ℚ :=
    match todayRiskScore with
    | some s => (s : ℚ)
    | none => 40
  pollenCatalog.map (fun type =>
    let score := estimatePollenTypeScore type currentMonth weather overall
    { toPollenType := type, score := score, level := riskLevel (score : ℚ) })

/-- Embeds the `pollenTypeStatus` memo: map over the catalog, then
`.sort((a, b) => b.score - a.score)` — a stable descending sort by score,
modelled by the stable `List.mergeSort`. -/
def pollenTypeStatus (currentMonth : ℕ) (weather : Option WeatherSnapshot)
    (todayRiskScore : Option ℤ) : List PollenTypeStatus :=
  (pollenTypeStatusUnsorted currentMonth weather todayRiskScore).mergeSort
    (fun a b => decide (b.score ≤ a.score))

/-- The month-scale factor of `adjustMapRiskScore`. -/
def monthScale (month : ℕ) : ℚ :=
  if 2 ≤ month ∧ month ≤ 4 then 1
  else if month = 5 then (78 / 100)
  else if 8 ≤ month ∧ month ≤ 10 then (55 / 100)
  else (35 / 100)

/-- `effectiveSuitability = clamp(suitability * monthScale, 0.15, 1)`. -/
def effectiveSuitability (suitability : ℚ) (month : ℕ) : ℚ :=
  clamp (suitability * monthScale month) (15 / 100) 1

/-- The clamped linear blend of `adjustMapRiskScore` before the final
`Math.round` (baseline 14). -/
def adjustMapRiskBlend (rawScore suitability : ℚ) (month : ℕ) : ℚ :=
  clamp (rawScore * effectiveSuitability suitability month
    + 14 * (1 - effectiveSuitability suitability month)) 0 100

/-- Embeds `adjustMapRiskScore(rawScore, suitability, month)`. -/
def adjustMapRiskScore (rawScore suitability : ℚ) (month : ℕ) : ℤ :=
  jsRound (adjustMapRiskBlend rawScore suitability month)

/-- Embeds the `SymptomLog` record. -/
structure SymptomLog where
  date : String
  severity : ℚ
  tookMedicine : Bool
  memo : String
deriving DecidableEq, Repr

/-- Embeds the state update of `submitLog`: build the entry for the current date, drop any
previous entry with the same date, prepend, and keep the first 30. -/
def submitLog (prev : List SymptomLog) (today : String) (severity : ℚ)
    (tookMedicine : Bool) (memo : String) : List SymptomLog :=
  let item : SymptomLog :=
    { date := today, severity := severity, tookMedicine := tookMedicine, memo := memo.trim }
  (item :: prev.filter (fun entry => entry.date != today)).take 30

/-- Embeds the `trend` memo: `null` below 6 entries, otherwise the one-decimal
rounded difference of the two 3-entry window averages. -/
def trend (logs : List SymptomLog) : Option ℚ :=
  if logs.length < 6 then none
  else
    let latest := logs.take 3
    let previous := (logs.drop 3).take 3
    let latestAvg := (latest.foldl (fun sum item => sum + item.severity) 0) / 3
    let previousAvg := (previous.foldl (fun sum item => sum + item.severity) 0) / 3
    some (roundTo1 (latestAvg - previousAvg))

/-! ## Helper lemmas -/

theorem le_clamp {lo hi : ℚ} (v : ℚ) (h : lo ≤ hi) : lo ≤ clamp v lo hi := by
  unfold clamp
  exact le_min h (le_max_left lo v)

theorem clamp_le (v lo hi : ℚ) : clamp v lo hi ≤ hi :=
  min_le_left hi (max lo v)

theorem clamp_mono {a b : ℚ} (lo hi : ℚ) (h : a ≤ b) :
    clamp a lo hi ≤ clamp b lo hi := by
  unfold clamp
  exact min_le_min le_rfl (max_le_max le_rfl h)

theorem jsRound_mono {a b : ℚ} (h : a ≤ b) : jsRound a ≤ jsRound b :=
  Int.floor_le_floor (by linarith)

theorem le_jsRound_of_intCast_le {n : ℤ} {q : ℚ} (h : (n : ℚ) ≤ q) :
    n ≤ jsRound q := by
  have : ⌊(n : ℚ) + 1 / 2⌋ ≤ ⌊q + 1 / 2⌋ := Int.floor_le_floor (by linarith)
  rwa [Int.floor_int_add, show ⌊(1 / 2 : ℚ)⌋ = 0 by norm_num, add_zero] at this

theorem jsRound_le_of_le_intCast {n : ℤ} {q : ℚ} (h : q ≤ (n : ℚ)) :
    jsRound q ≤ n := by
  have : ⌊q + 1 / 2⌋ ≤ ⌊(n : ℚ) + 1 / 2⌋ := Int.floor_le_floor (by linarith)
  rwa [Int.floor_int_add, show ⌊(1 / 2 : ℚ)⌋ = 0 by norm_num, add_zero] at this

theorem riskLevel_intCast_thresholds (n : ℤ) :
    (75 ≤ n → riskLevel (n : ℚ) = RiskLevel.veryHigh) ∧
    (55 ≤ n ∧ n < 75 → riskLevel (n : ℚ) = RiskLevel.high) ∧
    (35 ≤ n ∧ n < 55 → riskLevel (n : ℚ) = RiskLevel.slightlyHigh) ∧
    (n < 35 → riskLevel (n : ℚ) = RiskLevel.low) := by
  unfold riskLevel
  refine ⟨fun h => ?_, fun h => ?_, fun h => ?_, fun h => ?_⟩
  · rw [if_pos (by exact_mod_cast h)]
  · rw [if_neg (not_le.mpr (by exact_mod_cast h.2)), if_pos (by exact_mod_cast h.1)]
  · rw [if_neg (not_le.mpr (by exact_mod_cast (show n < 75 by omega))),
      if_neg (not_le.mpr (by exact_mod_cast h.2)), if_pos (by exact_mod_cast h.1)]
  · rw [if_neg (not_le.mpr (by exact_mod_cast (show n < 75 by omega))),
      if_neg (not_le.mpr (by exact_mod_cast (show n < 55 by omega))),
      if_neg (not_le.mpr (by exact_mod_cast h))]

theorem foldl_add_severity (l : List SymptomLog) :
    l.foldl (fun sum item => sum + item.severity) 0 = (l.map SymptomLog.severity).sum := by
  induction l using List.reverseRecOn with
  | nil => simp
  | append_singleton xs x ih => simp [ih]

/-! ## Claim theorems -/

/-- Claim C1: for every month and every snapshot, the score returned by
`estimateRisk` is an integer in [0, 100], and the returned level is the one
the fixed thresholds assign to that score: ≥ 75 the highest category,
[55, 75) high, [35, 55) elevated, below 35 low (each boundary belongs to
the higher category). -/
theorem estimateRisk_score_range_level (month : ℕ) (input : WeatherSnapshot) :
    0 ≤ (estimateRisk month input).score ∧ (estimateRisk month input).score ≤ 100 ∧
    (75 ≤ (estimateRisk month input).score →
      (estimateRisk month input).level = RiskLevel.veryHigh) ∧
    (55 ≤ (estimateRisk month input).score ∧ (estimateRisk month input).score < 75 →
      (estimateRisk month input).level = RiskLevel.high) ∧
    (35 ≤ (estimateRisk month input).score ∧ (estimateRisk month input).score < 55 →
      (estimateRisk month input).level = RiskLevel.slightlyHigh) ∧
    ((estimateRisk month input).score < 35 →
      (estimateRisk month input).level = RiskLevel.low) := by
  have hs : (estimateRisk month input).score =
      jsRound (clamp (estimateRiskTotal month input) 0 100) := rfl
  have hl : (estimateRisk month input).level =
      riskLevel (((estimateRisk month input).score : ℤ) : ℚ) := rfl
  have hth := riskLevel_intCast_thresholds (estimateRisk month input).score
  refine ⟨?_, ?_, ?_, ?_, ?_, ?_⟩
  · rw [hs]
    exact le_jsRound_of_intCast_le (by
      push_cast
      exact le_clamp _ (by norm_num))
  · rw [hs]
    exact jsRound_le_of_le_intCast (by
      push_cast
      exact clamp_le _ _ _)
  · intro h
    rw [hl]
    exact hth.1 h
  · intro h
    rw [hl]
    exact hth.2.1 h
  · intro h
    rw [hl]
    exact hth.2.2.1 h
  · intro h
    rw [hl]
    exact hth.2.2.2 h

/-- Witness for C1 at a concrete input: month 3,
snapshot (20, 40, 5, 0, 30, 15), whose score is 76 and level is the highest
category. -/
theorem estimateRisk_score_range_level_check :
    (estimateRisk 3 ⟨20, 40, 5, 0, 30, 15⟩).level = RiskLevel.veryHigh :=
  (estimateRisk_score_range_level 3 ⟨20, 40, 5, 0, 30, 15⟩).2.2.1
    (by with_unfolding_all decide)

/-- Counterexample to Claim C2 as stated: with suitability 0 and month 3,
`adjustMapRiskScore` applied to rawScore 15 returns exactly the baseline 14
even though 15 ≠ 14 (the final rounding collapses nearby blends onto 14). -/
theorem adjustMapRiskScore_baseline_counterexample :
    adjustMapRiskScore 15 0 3 = 14 ∧ (15 : ℚ) ≠ 14 := by
  with_unfolding_all decide

/-- Claim C2 (amended): for every rawScore, suitability and month the result
of `adjustMapRiskScore` lies in [0, 100]; for suitability 0 and any month among
2, 3 and 4 the effective suitability floors at 0.15, and the pre-rounding
blended value equals the baseline 14 exactly when rawScore equals 14 (after
the final rounding the integer result can hit 14 for nearby rawScores). -/
theorem adjustMapRiskScore_range_and_blend (rawScore suitability : ℚ) (month : ℕ) :
    (0 ≤ adjustMapRiskScore rawScore suitability month ∧
      adjustMapRiskScore rawScore suitability month ≤ 100) ∧
    (2 ≤ month ∧ month ≤ 4 →
      effectiveSuitability 0 month = 15 / 100 ∧
      (adjustMapRiskBlend rawScore 0 month = 14 ↔ rawScore = 14)) := by
  constructor
  · constructor
    · exact le_jsRound_of_intCast_le (by
        push_cast
        exact le_clamp _ (by norm_num))
    · exact jsRound_le_of_le_intCast (by
        push_cast
        exact clamp_le _ _ _)
  · intro hm
    have hms : monthScale month = 1 := by
      unfold monthScale
      rw [if_pos hm]
    have heff : effectiveSuitability 0 month = 15 / 100 := by
      unfold effectiveSuitability clamp
      rw [hms]
      norm_num
    refine ⟨heff, ?_⟩
    unfold adjustMapRiskBlend clamp
    rw [heff]
    constructor
    · intro h
      rcases le_total (rawScore * (15 / 100) + 14 * (1 - 15 / 100)) 0 with hx | hx
      · rw [max_eq_left hx] at h
        norm_num at h
      · rw [max_eq_right hx] at h
        rcases le_total (rawScore * (15 / 100) + 14 * (1 - 15 / 100)) 100 with hy | hy
        · rw [min_eq_right hy] at h
          linarith
        · rw [min_eq_left hy] at h
          norm_num at h
    · intro h
      rw [h]
      norm_num

/-- Witness for C2 (amended) at a concrete input: rawScore 14, suitability 0,
month 3 — the effective suitability is 0.15 and the blend sits exactly at the
baseline. -/
theorem adjustMapRiskScore_range_and_blend_check :
    effectiveSuitability 0 3 = 15 / 100 ∧ (adjustMapRiskBlend 14 0 3 = 14 ↔ (14 : ℚ) = 14) :=
  (adjustMapRiskScore_range_and_blend 14 0 3).2 (by omega)

/-- Claim C3: on the snapshot (temperature 20, humidity 40, wind 5,
precipitation 0, pm10 30, pm25 15) in month 3 the estimator returns score 76
and the highest level; with precipitation 2 instead it returns score 60 and
the high level. -/
theorem estimateRisk_example_values :
    (estimateRisk 3 ⟨20, 40, 5, 0, 30, 15⟩).score = 76 ∧
    (estimateRisk 3 ⟨20, 40, 5, 0, 30, 15⟩).level = RiskLevel.veryHigh ∧
    (estimateRisk 3 ⟨20, 40, 5, 2, 30, 15⟩).score = 60 ∧
    (estimateRisk 3 ⟨20, 40, 5, 2, 30, 15⟩).level = RiskLevel.high := by
  with_unfolding_all decide

/-- Claim C4: for season months 2, 3 and 4, `seasonalFactor` is 1 on every
in-season month (2, 3, 4), 0.44 at circular distance one (months 1 and 5),
0.2 at circular distance two (months 12 and 6, wrapping over the year
boundary), and 0 at month 8. -/
theorem seasonalFactor_ramp_values :
    seasonalFactor 2 [2, 3, 4] = 1 ∧
    seasonalFactor 3 [2, 3, 4] = 1 ∧
    seasonalFactor 4 [2, 3, 4] = 1 ∧
    seasonalFactor 1 [2, 3, 4] = 44 / 100 ∧
    seasonalFactor 5 [2, 3, 4] = 44 / 100 ∧
    seasonalFactor 12 [2, 3, 4] = 2 / 10 ∧
    seasonalFactor 6 [2, 3, 4] = 2 / 10 ∧
    seasonalFactor 8 [2, 3, 4] = 0 := by
  with_unfolding_all decide

/-- Claim C5: submitting a log prepends the new entry (newest-first), removes
any previous entry carrying the same date (so at most the new entry carries
the submitted date), truncates the history to at most 30 entries, and — when
the submitted date was not yet present — keeps all previous entries in order up to
the cap; with a full history of 30 entries and a fresh date, exactly the new
entry plus the 29 most recent old ones remain. -/
theorem submitLog_replace_truncate (prev : List SymptomLog) (today : String)
    (severity : ℚ) (tookMedicine : Bool) (memo : String) :
    (submitLog prev today severity tookMedicine memo).length ≤ 30 ∧
    (submitLog prev today severity tookMedicine memo).head? =
      some ⟨today, severity, tookMedicine, memo.trim⟩ ∧
    (∀ e ∈ submitLog prev today severity tookMedicine memo,
      e.date = today → e = ⟨today, severity, tookMedicine, memo.trim⟩) ∧
    (today ∉ prev.map SymptomLog.date →
      submitLog prev today severity tookMedicine memo =
        (⟨today, severity, tookMedicine, memo.trim⟩ :: prev).take 30) ∧
    (today ∉ prev.map SymptomLog.date → prev.length = 30 →
      submitLog prev today severity tookMedicine memo =
        ⟨today, severity, tookMedicine, memo.trim⟩ :: prev.take 29) := by
  have hdef : submitLog prev today severity tookMedicine memo =
      (SymptomLog.mk today severity tookMedicine memo.trim ::
        prev.filter (fun entry => entry.date != today)).take 30 := rfl
  have key : today ∉ prev.map SymptomLog.date →
      prev.filter (fun entry => entry.date != today) = prev := by
    intro hnot
    apply List.filter_eq_self.mpr
    intro a ha
    simp only [bne_iff_ne, ne_eq]
    intro heq
    exact hnot (heq ▸ List.mem_map_of_mem SymptomLog.date ha)
  refine ⟨?_, ?_, ?_, ?_, ?_⟩
  · rw [hdef, List.length_take]
    exact min_le_left _ _
  · rw [hdef]
    rfl
  · intro e he hdate
    rw [hdef] at he
    rcases List.mem_cons.mp (List.mem_of_mem_take he) with h | h
    · exact h
    · exfalso
      have h3 := List.of_mem_filter h
      simp only [bne_iff_ne, ne_eq] at h3
      exact h3 hdate
  · intro hnot
    rw [hdef, key hnot]
  · intro hnot hlen
    rw [hdef, key hnot]
    rfl

/-- Witness for C5 at a concrete input: a fresh date submitted on a one-entry
history keeps the old entry behind the new one. -/
theorem submitLog_replace_truncate_check :
    submitLog [⟨"2026-10-10", 3, false, "x"⟩] "2026-10-11" 4 true "memo" =
      (⟨"2026-10-11", 4, true, "memo".trim⟩ :: [⟨"2026-10-10", 3, false, "x"⟩]).take 30 :=
  (submitLog_replace_truncate [⟨"2026-10-10", 3, false, "x"⟩] "2026-10-11" 4 true
    "memo").2.2.2.1 (by simp)

/-- Claim C6: over a newest-first history, the trend is `none` whenever fewer
than 6 entries exist, and with at least 6 entries it is the mean severity of
the 3 most recent entries minus the mean severity of the entries at positions
3–5, rounded to one decimal. -/
theorem trend_none_or_mean_delta (logs : List SymptomLog) :
    (logs.length < 6 → trend logs = none) ∧
    (6 ≤ logs.length →
      trend logs = some (roundTo1
        (((logs.take 3).map SymptomLog.severity).sum / 3 -
          (((logs.drop 3).take 3).map SymptomLog.severity).sum / 3))) := by
  constructor
  · intro h
    unfold trend
    rw [if_pos h]
  · intro h
    unfold trend
    rw [if_neg (by omega)]
    simp only [foldl_add_severity]

/-- Witness for C6 at concrete inputs: a 5-entry history yields no trend, and
a 6-entry history with recent severities 5, 4, 3 over previous 2, 1, 0 yields
trend 3. -/
theorem trend_none_or_mean_delta_check :
    trend [⟨"d5", 5, false, ""⟩, ⟨"d4", 4, false, ""⟩, ⟨"d3", 3, false, ""⟩,
      ⟨"d2", 2, false, ""⟩, ⟨"d1", 1, false, ""⟩] = none ∧
    trend [⟨"d6", 5, false, ""⟩, ⟨"d5", 4, false, ""⟩, ⟨"d4", 3, false, ""⟩,
      ⟨"d3", 2, false, ""⟩, ⟨"d2", 1, false, ""⟩, ⟨"d1", 0, false, ""⟩] = some 3 := by
  constructor
  · exact (trend_none_or_mean_delta _).1 (by simp)
  · rw [(trend_none_or_mean_delta _).2 (by simp)]
    with_unfolding_all decide

/-- Claim C7: holding month and every other snapshot field fixed, the score
of `estimateRisk` is monotone nondecreasing in the wind speed — the wind
contribution is clamped to [0, 20] and is never negative. -/
theorem estimateRisk_wind_monotone (month : ℕ) (input : WeatherSnapshot)
    (w1 w2 : ℚ) (h : w1 ≤ w2) :
    (estimateRisk month { input with wind := w1 }).score ≤
      (estimateRisk month { input with wind := w2 }).score := by
  have hw : clamp ((w1 - 2) * (29 / 10)) 0 20 ≤ clamp ((w2 - 2) * (29 / 10)) 0 20 :=
    clamp_mono _ _ (by linarith)
  have htot : estimateRiskTotal month { input with wind := w1 } ≤
      estimateRiskTotal month { input with wind := w2 } := by
    simp only [estimateRiskTotal]
    split_ifs <;> linarith
  exact jsRound_mono (clamp_mono _ _ htot)

/-- Witness for C7 at a concrete input: raising the wind from 1 to 5 on the
example snapshot does not lower the score. -/
theorem estimateRisk_wind_monotone_check :
    (estimateRisk 3 ⟨20, 40, 1, 0, 30, 15⟩).score ≤
      (estimateRisk 3 ⟨20, 40, 5, 0, 30, 15⟩).score :=
  estimateRisk_wind_monotone 3 ⟨20, 40, 0, 0, 30, 15⟩ 1 5 (by norm_num)

/-- Claim C8: holding everything else fixed, changing the precipitation from
0 to any positive value lowers the running total of `estimateRisk` — the
score before the final clamp to [0, 100] and rounding — by exactly 16. -/
theorem estimateRiskTotal_rain_penalty (month : ℕ) (input : WeatherSnapshot)
    (p : ℚ) (hp : 0 < p) :
    estimateRiskTotal month { input with precipitation := p } =
      estimateRiskTotal month { input with precipitation := 0 } - 16 := by
  simp only [estimateRiskTotal]
  rw [if_pos hp, if_neg (lt_irrefl (0 : ℚ))]
  split_ifs <;> ring

/-- Witness for C8 at a concrete input: precipitation 2 versus 0 on the
example snapshot shifts the running total down by exactly 16. -/
theorem estimateRiskTotal_rain_penalty_check :
    estimateRiskTotal 3 ⟨20, 40, 5, 2, 30, 15⟩ =
      estimateRiskTotal 3 ⟨20, 40, 5, 0, 30, 15⟩ - 16 :=
  estimateRiskTotal_rain_penalty 3 ⟨20, 40, 5, 7, 30, 15⟩ 2 (by norm_num)

/-- Claim C10: holding month and every other snapshot field fixed, the score
of `estimateRisk` is monotone nonincreasing in humidity — both the clamped
dryness contribution and the humidity ≥ 70 penalty move the score down as
humidity rises. -/
theorem estimateRisk_humidity_antitone (month : ℕ) (input : WeatherSnapshot)
    (h1 h2 : ℚ) (hle : h1 ≤ h2) :
    (estimateRisk month { input with humidity := h2 }).score ≤
      (estimateRisk month { input with humidity := h1 }).score := by
  have hdry : clamp ((48 - h2) * (6 / 10)) 0 15 ≤ clamp ((48 - h1) * (6 / 10)) 0 15 :=
    clamp_mono _ _ (by linarith)
  have htot : estimateRiskTotal month { input with humidity := h2 } ≤
      estimateRiskTotal month { input with humidity := h1 } := by
    simp only [estimateRiskTotal]
    split_ifs <;> linarith
  exact jsRound_mono (clamp_mono _ _ htot)

/-- Witness for C10 at a concrete input: raising the humidity from 40 to 75
on the example snapshot does not raise the score. -/
theorem estimateRisk_humidity_antitone_check :
    (estimateRisk 3 ⟨20, 75, 5, 0, 30, 15⟩).score ≤
      (estimateRisk 3 ⟨20, 40, 5, 0, 30, 15⟩).score :=
  estimateRisk_humidity_antitone 3 ⟨20, 0, 5, 0, 30, 15⟩ 40 75 (by norm_num)

theorem scoreDesc_trans :
    ∀ a b c : PollenTypeStatus,
      (fun a b : PollenTypeStatus => decide (b.score ≤ a.score)) a b →
      (fun a b : PollenTypeStatus => decide (b.score ≤ a.score)) b c →
      (fun a b : PollenTypeStatus => decide (b.score ≤ a.score)) a c := by
  intro a b c hab hbc
  simp only [decide_eq_true_eq] at hab hbc ⊢
  exact le_trans hbc hab

theorem scoreDesc_total :
    ∀ a b : PollenTypeStatus,
      (fun a b : PollenTypeStatus => decide (b.score ≤ a.score)) a b ||
        (fun a b : PollenTypeStatus => decide (b.score ≤ a.score)) b a := by
  intro a b
  simp only [Bool.or_eq_true, decide_eq_true_eq]
  exact le_total b.score a.score

theorem mergeSort_scoreDesc_filter (l : List PollenTypeStatus) (s : ℤ) :
    (l.mergeSort (fun a b => decide (b.score ≤ a.score))).filter (fun x => x.score == s) =
      l.filter (fun x => x.score == s) := by
  have hmem : ∀ x ∈ l.filter (fun x => x.score == s), x.score = s := by
    intro x hx
    simpa using List.of_mem_filter hx
  have hc : (l.filter (fun x => x.score == s)).Pairwise
      (fun a b => (fun a b : PollenTypeStatus => decide (b.score ≤ a.score)) a b = true) := by
    apply List.pairwise_of_forall_mem_list
    intro a ha b hb
    simp [hmem a ha, hmem b hb]
  have hsub := List.sublist_mergeSort scoreDesc_trans scoreDesc_total hc (List.filter_sublist l)
  have hidem : (l.filter (fun x => x.score == s)).filter (fun x => x.score == s) =
      l.filter (fun x => x.score == s) :=
    List.filter_eq_self.mpr (fun a ha => (List.mem_filter.mp ha).2)
  have hsub2 : List.Sublist (l.filter (fun x => x.score == s))
      ((l.mergeSort (fun a b => decide (b.score ≤ a.score))).filter (fun x => x.score == s)) := by
    have := hsub.filter (fun x => x.score == s)
    rwa [hidem] at this
  have hperm : List.Perm
      ((l.mergeSort (fun a b => decide (b.score ≤ a.score))).filter (fun x => x.score == s))
      (l.filter (fun x => x.score == s)) :=
    (List.mergeSort_perm l (fun a b => decide (b.score ≤ a.score))).filter (fun x => x.score == s)
  exact (hsub2.eq_of_length hperm.length_eq.symm).symm

/-- Claim C9: the pollen-type status list is sorted descending by computed
score, and the sort is stable: for every score value, the entries carrying
that score appear in the output in exactly their catalog (declaration)
order, i.e. filtering the sorted and the unsorted lists by that score gives
the same list. -/
theorem pollenTypeStatus_sorted_stable (currentMonth : ℕ)
    (weather : Option WeatherSnapshot) (todayRiskScore : Option ℤ) :
    (pollenTypeStatus currentMonth weather todayRiskScore).Pairwise
      (fun a b => b.score ≤ a.score) ∧
    ∀ s : ℤ,
      (pollenTypeStatus currentMonth weather todayRiskScore).filter
          (fun x => x.score == s) =
        (pollenTypeStatusUnsorted currentMonth weather todayRiskScore).filter
          (fun x => x.score == s) := by
  constructor
  · have h := List.sorted_mergeSort scoreDesc_trans scoreDesc_total
      (pollenTypeStatusUnsorted currentMonth weather todayRiskScore)
    exact h.imp (by
      intro a b hab
      simpa using hab)
  · intro s
    exact mergeSort_scoreDesc_filter
      (pollenTypeStatusUnsorted currentMonth weather todayRiskScore) s

end KafunNavi
